import Mathlib

/-!
Shallow embedding of the Showcase-server backend (`src/server.js`).

The server keeps an in-memory list `games` and a version tag `fileSHA`,
persists the list to a remote GitHub contents API with a bounded retry
loop (`saveToGitHub`), and exposes HTTP handlers `GET /games`,
`POST /add`, `POST /edit`, `POST /delete` plus a WebSocket connection
handler that sends an `init` snapshot.

Environmental inputs (clock, random suffix, network responses) are
passed as explicit parameters; the remote store is an oracle giving the
outcome of the GET (sha re-fetch) and the PUT of each attempt.
-/

namespace Showcase

/-- One game entry, as constructed in `POST /add` (src/server.js lines 167-174).
`updatedAt` is absent until the first successful edit. -/
structure Game where
  id : String
  title : String
  description : String
  link : String
  image : Option String
  createdAt : String
  updatedAt : Option String := none
deriving DecidableEq, Repr, Inhabited

/-- Process-wide mutable state: `let games = []` and `let fileSHA = null`
(src/server.js lines 29-30). -/
structure ServerState where
  games : List Game
  fileSHA : Option String
deriving DecidableEq, Repr

/-- Outcome of the sha re-fetch `fetch(GH_API)` performed inside
`saveToGitHub` before an attempt: response ok with a sha, response not
ok (sha kept), or the fetch itself threw. -/
inductive CheckResult where
  | ok (sha : String)
  | notOk
  | threw (msg : String)
deriving DecidableEq, Repr

/-- Outcome of the conditional PUT of one attempt: ok with the new
content sha (`saved.content.sha`), or a failure carrying the error
message thrown (from `err.message || res.statusText`, or a rejected
fetch). -/
inductive PutResult where
  | ok (newSha : String)
  | err (msg : String)
deriving DecidableEq, Repr

/-- Oracle for the remote store: the network outcome of the re-fetch and
of the PUT of each attempt number. -/
structure StoreBehavior where
  check : Nat → CheckResult
  put : Nat → PutResult

/-- Record of one iteration of the retry loop: which attempt it was,
whether the sha re-fetch ran, the sha field sent with the PUT
(`none` when the re-fetch threw so no PUT was issued), and the backoff
delay slept after a failed non-final attempt. -/
structure AttemptInfo where
  attempt : Nat
  didRefetch : Bool
  shaSent : Option (Option String)
  delayMs : Option Nat
deriving DecidableEq, Repr

/-- Result of `saveToGitHub`: success flag, the propagated last error on
exhaustion, the value of the `fileSHA` variable after the call, and the
trace of attempts performed. -/
structure SaveResult where
  ok : Bool
  lastErr : Option String
  fileSHA : Option String
  trace : List AttemptInfo
deriving DecidableEq, Repr

/-- `const MAX_RETRIES = 3` (src/server.js line 60). -/
def MAX_RETRIES : Nat := 3

/-- Outcome of one iteration of the retry loop: the PUT succeeded with a
new content sha, or the iteration threw (re-fetch rejected, PUT not ok,
or PUT rejected), leaving the `fileSHA` variable at `shaAfter`. -/
inductive StepResult where
  | success (newSha : String)
  | failure (msg : String) (shaAfter : Option String)
deriving DecidableEq, Repr

/-- One iteration of the `try` block of `saveToGitHub`
(src/server.js lines 62-89): re-fetch the sha when
`attempt > 1 || !fileSHA` (keeping the old sha when the response is not
ok, failing the iteration when the fetch throws); then issue the PUT
carrying the current sha. Also records the `AttemptInfo` of the
iteration, including the backoff delay `500 * attempt` that follows a
failure of a non-final attempt. -/
def attemptStep (store : StoreBehavior) (attempt : Nat) (sha : Option String) :
    StepResult × AttemptInfo :=
  let needRefetch := decide (1 < attempt) || sha.isNone
  let isLast := attempt == MAX_RETRIES
  let failDelay : Option Nat := if isLast then none else some (500 * attempt)
  if needRefetch then
    match store.check attempt with
    | CheckResult.threw m =>
      (StepResult.failure m sha,
       { attempt := attempt, didRefetch := true, shaSent := none, delayMs := failDelay })
    | CheckResult.ok s =>
      match store.put attempt with
      | PutResult.ok newSha =>
        (StepResult.success newSha,
         { attempt := attempt, didRefetch := true, shaSent := some (some s), delayMs := none })
      | PutResult.err m =>
        (StepResult.failure m (some s),
         { attempt := attempt, didRefetch := true, shaSent := some (some s), delayMs := failDelay })
    | CheckResult.notOk =>
      match store.put attempt with
      | PutResult.ok newSha =>
        (StepResult.success newSha,
         { attempt := attempt, didRefetch := true, shaSent := some sha, delayMs := none })
      | PutResult.err m =>
        (StepResult.failure m sha,
         { attempt := attempt, didRefetch := true, shaSent := some sha, delayMs := failDelay })
  else
    match store.put attempt with
    | PutResult.ok newSha =>
      (StepResult.success newSha,
       { attempt := attempt, didRefetch := false, shaSent := some sha, delayMs := none })
    | PutResult.err m =>
      (StepResult.failure m sha,
       { attempt := attempt, didRefetch := false, shaSent := some sha, delayMs := failDelay })

/-- The retry loop of `saveToGitHub` (src/server.js lines 61-95).
`attempt` is the loop counter starting at 1; `fuel` is the number of
loop iterations still permitted (`MAX_RETRIES - attempt + 1` at entry),
which makes the recursion structural. On success the returned content
sha is stored and the loop stops; on a thrown error the error is
re-thrown when `attempt === MAX_RETRIES`, else the loop sleeps
`500 * attempt` ms and retries. -/
def saveGo (store : StoreBehavior) : Nat → Nat → Option String → List AttemptInfo → SaveResult
  | _, 0, sha, acc =>
    { ok := false, lastErr := none, fileSHA := sha, trace := acc.reverse }
  | attempt, fuel + 1, sha, acc =>
    match attemptStep store attempt sha with
    | (StepResult.success newSha, info) =>
      { ok := true, lastErr := none, fileSHA := some newSha, trace := (info :: acc).reverse }
    | (StepResult.failure m shaAfter, info) =>
      if attempt == MAX_RETRIES then
        { ok := false, lastErr := some m, fileSHA := shaAfter, trace := (info :: acc).reverse }
      else
        saveGo store (attempt + 1) fuel shaAfter (info :: acc)

/-- `async function saveToGitHub(message)` (src/server.js lines 59-96),
as a function of the store oracle and the current `fileSHA`. The commit
message and the serialized `games` content are opaque to the control
flow modelled here. -/
def saveToGitHub (store : StoreBehavior) (fileSHA : Option String) : SaveResult :=
  saveGo store 1 MAX_RETRIES fileSHA []

/-- An uploaded multipart file (`req.file`): mimetype plus base64 body. -/
structure ReqFile where
  mimetype : String
  base64 : String
deriving DecidableEq, Repr

/-- Body and auth header of a `POST /add` request. Absent fields are
`none`. -/
structure AddRequest where
  auth : Option String
  title : Option String
  description : Option String
  link : Option String
  image : Option String
  file : Option ReqFile
deriving Repr

/-- Body and auth header of a `POST /edit` request. -/
structure EditRequest where
  auth : Option String
  id : Option String
  title : Option String
  description : Option String
  link : Option String
  image : Option String
  file : Option ReqFile
deriving Repr

/-- Body and auth header of a `POST /delete` request. -/
structure DeleteRequest where
  auth : Option String
  id : Option String
deriving Repr

/-- JS `String.prototype.trim`: strip whitespace from both ends.
Defined by structural recursion over the character list (Lean's own
`String.trim` is not kernel-reducible); agrees with JS on the common
ASCII whitespace characters. -/
def jsTrim (s : String) : String :=
  String.mk (((s.data.dropWhile Char.isWhitespace).reverse.dropWhile Char.isWhitespace).reverse)

/-- JS `!field?.trim()`: the field is absent, or trims to the empty
string. -/
def blank (s : Option String) : Bool :=
  match s with
  | none => true
  | some t => jsTrim t == ""

/-- JS truthiness of an optional string field (`if (x)`): present and
non-empty. -/
def truthy (s : Option String) : Bool :=
  match s with
  | none => false
  | some t => t != ""

/-- `requireAuth` (src/server.js lines 118-124): the `authorization`
header must be present and equal `Bearer ${ADMIN_TOKEN}`. A missing or
empty header is falsy and already fails the equality. -/
def requireAuth (adminToken : String) (auth : Option String) : Bool :=
  match auth with
  | none => false
  | some token => token == "Bearer " ++ adminToken

/-- The data URI built from an uploaded file:
`data:${mimetype};base64,${base64}`. -/
def dataUri (f : ReqFile) : String :=
  "data:" ++ f.mimetype ++ ";base64," ++ f.base64

/-- The id generated in `POST /add`:
`game_${Date.now()}_${Math.random().toString(36).slice(2, 7)}`, as a
function of the clock value and the random suffix. -/
def makeGameId (nowMs : Nat) (rand : String) : String :=
  "game_" ++ toString nowMs ++ "_" ++ rand

/-- JSON response body of a handler. -/
inductive RespBody where
  | game (g : Game)
  | error (msg : String)
  | okId (id : String)
  | gamesList (gs : List Game)
  | health (ok : Bool) (count : Nat)
deriving DecidableEq, Repr

/-- Payload of a WebSocket message. -/
inductive WsPayload where
  | list (gs : List Game)
  | game (g : Game)
  | idOnly (id : String)
deriving DecidableEq, Repr

/-- A WebSocket message `{ type, payload, ts }`. -/
structure WsMsg where
  type : String
  payload : WsPayload
  ts : Nat
deriving DecidableEq, Repr

/-- A broadcast fan-out event `broadcast(type, payload)`; the `ts` field
is stamped at send time and is environmental. -/
structure BroadcastEvent where
  type : String
  payload : WsPayload
deriving DecidableEq, Repr

/-- Everything a handler produces: HTTP status and body, the server
state after the request, the broadcasts emitted, and the result of the
`saveToGitHub` call when one was made (`none` when persistence was never
attempted). -/
structure HandlerOut where
  status : Nat
  body : RespBody
  state : ServerState
  broadcasts : List BroadcastEvent
  save : Option SaveResult
deriving Repr

/-- `GET /games` (src/server.js lines 145-147): responds with
`[...games].reverse()` and touches nothing. -/
def getGames (st : ServerState) : HandlerOut :=
  { status := 200, body := RespBody.gamesList st.games.reverse,
    state := st, broadcasts := [], save := none }

/-- `GET /health` (src/server.js line 150). -/
def getHealth (st : ServerState) : HandlerOut :=
  { status := 200, body := RespBody.health true st.games.length,
    state := st, broadcasts := [], save := none }

/-- `wss.on('connection')` (src/server.js lines 136-140): the messages
sent to a newly connected subscriber — exactly one `init` message whose
payload is the current `games` list. -/
def onConnection (st : ServerState) (nowMs : Nat) : List WsMsg :=
  [{ type := "init", payload := WsPayload.list st.games, ts := nowMs }]

/-- Image resolution in `POST /add` (src/server.js lines 160-165): an
uploaded file becomes a data URI; otherwise a truthy `image` body field
is used as-is (an empty string is falsy and leaves `null`). -/
def addImage (req : AddRequest) : Option String :=
  match req.file with
  | some f => some (dataUri f)
  | none => if truthy req.image then req.image else none

/-- The game object constructed by `POST /add`
(src/server.js lines 167-174). -/
def newGame (req : AddRequest) (nowMs : Nat) (rand : String) (nowIso : String) : Game :=
  { id := makeGameId nowMs rand,
    title := jsTrim (req.title.getD ""),
    description := jsTrim (req.description.getD ""),
    link := jsTrim (req.link.getD ""),
    image := addImage req,
    createdAt := nowIso,
    updatedAt := none }

/-- `POST /add` (src/server.js lines 153-187): auth, validation of the
three required fields, construction of the new game, push, persist, and
rollback via `games.pop()` on persist failure. -/
def postAdd (adminToken : String) (store : StoreBehavior) (req : AddRequest)
    (nowMs : Nat) (rand : String) (nowIso : String) (st : ServerState) : HandlerOut :=
  if !(requireAuth adminToken req.auth) then
    { status := 401, body := RespBody.error "Unauthorized",
      state := st, broadcasts := [], save := none }
  else if blank req.title || blank req.description || blank req.link then
    { status := 400, body := RespBody.error "title, description, and link are required",
      state := st, broadcasts := [], save := none }
  else
    let game : Game := newGame req nowMs rand nowIso
    let games1 := st.games ++ [game]
    let sr := saveToGitHub store st.fileSHA
    if sr.ok then
      { status := 201, body := RespBody.game game,
        state := { games := games1, fileSHA := sr.fileSHA },
        broadcasts := [{ type := "add", payload := WsPayload.game game }],
        save := some sr }
    else
      { status := 500, body := RespBody.error "Failed to persist game",
        state := { games := games1.dropLast, fileSHA := sr.fileSHA },
        broadcasts := [], save := some sr }

/-- The per-field update applied by `POST /edit`
(src/server.js lines 198-211): each of `title`, `description`, `link`
is replaced by its trimmed new value when the supplied value is
non-blank (`if (field?.trim())`), else kept; an uploaded file replaces
`image` with a data URI, else a truthy `image` body field replaces it
verbatim; `updatedAt` is set. `id` and `createdAt` are never touched. -/
def editApply (prev : Game) (req : EditRequest) (nowIso : String) : Game :=
  let u1 := if !(blank req.title) then
      { prev with title := jsTrim (req.title.getD "") } else prev
  let u2 := if !(blank req.description) then
      { u1 with description := jsTrim (req.description.getD "") } else u1
  let u3 := if !(blank req.link) then
      { u2 with link := jsTrim (req.link.getD "") } else u2
  let u4 :=
    match req.file with
    | some f => { u3 with image := some (dataUri f) }
    | none => if truthy req.image then { u3 with image := req.image } else u3
  { u4 with updatedAt := some nowIso }

/-- `POST /edit` (src/server.js lines 190-223): auth, required id,
lookup by `findIndex`, copy of the previous entry, per-field update,
in-place replacement, persist, and rollback via `games[idx] = prev` on
persist failure. -/
def postEdit (adminToken : String) (store : StoreBehavior) (req : EditRequest)
    (nowIso : String) (st : ServerState) : HandlerOut :=
  if !(requireAuth adminToken req.auth) then
    { status := 401, body := RespBody.error "Unauthorized",
      state := st, broadcasts := [], save := none }
  else if !(truthy req.id) then
    { status := 400, body := RespBody.error "id is required",
      state := st, broadcasts := [], save := none }
  else
    let id := req.id.getD ""
    match st.games.findIdx? (fun g => g.id == id) with
    | none =>
      { status := 404, body := RespBody.error "Game not found",
        state := st, broadcasts := [], save := none }
    | some idx =>
      let prev := st.games.getD idx default
      let updated := editApply prev req nowIso
      let games1 := st.games.set idx updated
      let sr := saveToGitHub store st.fileSHA
      if sr.ok then
        { status := 200, body := RespBody.game updated,
          state := { games := games1, fileSHA := sr.fileSHA },
          broadcasts := [{ type := "edit", payload := WsPayload.game updated }],
          save := some sr }
      else
        { status := 500, body := RespBody.error "Failed to persist changes",
          state := { games := games1.set idx prev, fileSHA := sr.fileSHA },
          broadcasts := [], save := some sr }

/-- `POST /delete` (src/server.js lines 226-244): auth, required id,
lookup by `findIndex`, removal via `splice(idx, 1)`, persist, and
rollback via `splice(idx, 0, removed)` on persist failure. -/
def postDelete (adminToken : String) (store : StoreBehavior) (req : DeleteRequest)
    (st : ServerState) : HandlerOut :=
  if !(requireAuth adminToken req.auth) then
    { status := 401, body := RespBody.error "Unauthorized",
      state := st, broadcasts := [], save := none }
  else if !(truthy req.id) then
    { status := 400, body := RespBody.error "id is required",
      state := st, broadcasts := [], save := none }
  else
    let id := req.id.getD ""
    match st.games.findIdx? (fun g => g.id == id) with
    | none =>
      { status := 404, body := RespBody.error "Game not found",
        state := st, broadcasts := [], save := none }
    | some idx =>
      let removed := st.games.getD idx default
      let games1 := st.games.eraseIdx idx
      let sr := saveToGitHub store st.fileSHA
      if sr.ok then
        { status := 200, body := RespBody.okId removed.id,
          state := { games := games1, fileSHA := sr.fileSHA },
          broadcasts := [{ type := "delete", payload := WsPayload.idOnly removed.id }],
          save := some sr }
      else
        { status := 500, body := RespBody.error "Failed to persist deletion",
          state := { games := games1.insertIdx idx removed, fileSHA := sr.fileSHA },
          broadcasts := [], save := some sr }

/-- One mutating request together with its environmental inputs. -/
inductive Op where
  | add (store : StoreBehavior) (req : AddRequest) (nowMs : Nat) (rand : String) (nowIso : String)
  | edit (store : StoreBehavior) (req : EditRequest) (nowIso : String)
  | del (store : StoreBehavior) (req : DeleteRequest)

/-- State transition of one mutating request (requests are handled
sequentially; each handler's mutate-persist-revert sequence is atomic
per §5 of the spec). -/
def applyOp (adminToken : String) (st : ServerState) (op : Op) : ServerState :=
  match op with
  | Op.add store req nowMs rand nowIso => (postAdd adminToken store req nowMs rand nowIso st).state
  | Op.edit store req nowIso => (postEdit adminToken store req nowIso st).state
  | Op.del store req => (postDelete adminToken store req st).state

/-- Run a sequence of mutating requests from a starting state. -/
def runOps (adminToken : String) (st : ServerState) (ops : List Op) : ServerState :=
  ops.foldl (applyOp adminToken) st

/-- A store whose every PUT succeeds: no conflicts, no network faults. -/
def okStore : StoreBehavior :=
  { check := fun _ => CheckResult.notOk, put := fun _ => PutResult.ok "sha-ok" }

/-- A store whose every re-fetch returns a fresh sha and whose every PUT
fails: persistence that exhausts its retries. -/
def failStore : StoreBehavior :=
  { check := fun _ => CheckResult.ok "sha-refetched", put := fun _ => PutResult.err "boom" }

/-- Concrete valid `POST /add` request for game A. -/
def addReqA : AddRequest :=
  { auth := some "Bearer tok", title := some "A", description := some "dA",
    link := some "lA", image := none, file := none }

/-- Concrete valid `POST /add` request for game B. -/
def addReqB : AddRequest :=
  { auth := some "Bearer tok", title := some "B", description := some "dB",
    link := some "lB", image := none, file := none }

/-- The freshly booted state: `games = []`, `fileSHA = null`. -/
def st0 : ServerState := { games := [], fileSHA := none }

/-- The entry produced by `addReqA` at time 1 with random suffix `aaaaa`. -/
def gameA : Game :=
  { id := "game_1_aaaaa", title := "A", description := "dA", link := "lA",
    image := none, createdAt := "t1", updatedAt := none }

/-- The entry produced by `addReqB` at time 2 with random suffix `bbbbb`. -/
def gameB : Game :=
  { id := "game_2_bbbbb", title := "B", description := "dB", link := "lB",
    image := none, createdAt := "t2", updatedAt := none }

/-- The state after `add(A)` then `add(B)` from the fresh state, both
persists succeeding. -/
def stAB : ServerState :=
  (postAdd "tok" okStore addReqB 2 "bbbbb" "t2"
    (postAdd "tok" okStore addReqA 1 "aaaaa" "t1" st0).state).state

/-- `requireAuth` passes exactly when the header equals
`Bearer <adminToken>`. -/
theorem requireAuth_iff (adminToken : String) (auth : Option String) :
    requireAuth adminToken auth = true ↔ auth = some ("Bearer " ++ adminToken) := by
  cases auth <;> simp [requireAuth]

/-- Setting a position of a list to the value already there is the
identity. -/
theorem set_getElem_self {α : Type} (l : List α) (i : Nat) (h : i < l.length) :
    l.set i l[i] = l := by
  induction l generalizing i with
  | nil => simp at h
  | cons a t ih =>
    cases i with
    | zero => simp
    | succ j =>
      simp only [List.getElem_cons_succ, List.set_cons_succ, List.cons.injEq, true_and]
      exact ih j (Nat.lt_of_succ_lt_succ h)

/-- Re-inserting the removed element at its original position undoes
`eraseIdx`. -/
theorem insertIdx_getElem_eraseIdx {α : Type} (l : List α) (i : Nat) (h : i < l.length) :
    (l.eraseIdx i).insertIdx i l[i] = l := by
  induction l generalizing i with
  | nil => simp at h
  | cons a t ih =>
    cases i with
    | zero => simp [List.insertIdx]
    | succ j =>
      simp only [List.getElem_cons_succ, List.eraseIdx_cons_succ, List.insertIdx_succ_cons,
        List.cons.injEq, true_and]
      exact ih j (Nat.lt_of_succ_lt_succ h)

/-- `map` commutes with `eraseIdx`. -/
theorem map_eraseIdx {α β : Type} (f : α → β) (l : List α) (i : Nat) :
    (l.eraseIdx i).map f = (l.map f).eraseIdx i := by
  induction l generalizing i with
  | nil => simp
  | cons a t ih =>
    cases i with
    | zero => simp
    | succ j => simp [List.eraseIdx_cons_succ, ih]

/-- A successful `findIdx?` returns an in-bounds index. -/
theorem findIdx?_bound {α : Type} {l : List α} {p : α → Bool} {i : Nat}
    (h : l.findIdx? p = some i) : i < l.length := by
  obtain ⟨hlt, -⟩ := List.findIdx?_eq_some_iff_getElem.mp h
  exact hlt

/-- The element at a successful `findIdx?` index satisfies the
predicate. -/
theorem findIdx?_getD {α : Type} [Inhabited α] {l : List α} {p : α → Bool} {i : Nat}
    (h : l.findIdx? p = some i) : p (l.getD i default) = true := by
  obtain ⟨hlt, hp, -⟩ := List.findIdx?_eq_some_iff_getElem.mp h
  simpa [List.getElem?_eq_getElem hlt] using hp

/-- `getD` at an in-bounds index is `getElem`. -/
theorem getD_eq_getElem_of_lt {α : Type} [Inhabited α] {l : List α} {i : Nat}
    (h : i < l.length) : l.getD i default = l[i] := by
  simp [List.getElem?_eq_getElem h]

/-- In a duplicate-free list, the element at position `i` does not occur
in the list with position `i` erased. -/
theorem nodup_getElem_not_mem_eraseIdx {β : Type} (l : List β) (i : Nat)
    (hnd : l.Nodup) (h : i < l.length) : l[i] ∉ l.eraseIdx i := by
  intro hmem
  obtain ⟨j, hj, hje⟩ := List.mem_iff_getElem.mp hmem
  rw [List.getElem_eraseIdx] at hje
  split at hje
  · exact absurd (hnd.getElem_inj_iff.mp hje) (by omega)
  · exact absurd (hnd.getElem_inj_iff.mp hje) (by omega)

/-- Structural well-formedness of one attempt record: a second or later
attempt re-fetched the sha, and any backoff slept after it is
`500 * attempt` (linear). -/
def traceOK (e : AttemptInfo) : Prop :=
  (2 ≤ e.attempt → e.didRefetch = true) ∧ ∀ d, e.delayMs = some d → d = 500 * e.attempt

/-- Every attempt record produced by `attemptStep` is well-formed and
labelled with its attempt number. -/
theorem attemptStep_info (store : StoreBehavior) (a : Nat) (sha : Option String) :
    traceOK (attemptStep store a sha).2 ∧ (attemptStep store a sha).2.attempt = a := by
  by_cases hn : (decide (1 < a) || sha.isNone) = true <;>
    rcases hc : store.check a with s | _ | m <;>
      rcases hp : store.put a with ns | m2 <;>
        simp only [attemptStep, hn, hc, hp, Bool.false_eq_true, if_true, if_false,
          Bool.not_eq_true] <;>
      constructor <;>
    constructor <;>
      try intro x hx
  all_goals (try split at hx) <;> simp_all <;> omega

/-- The trace accumulated by the retry loop consists of well-formed
attempt records. -/
theorem saveGo_trace_traceOK (store : StoreBehavior) :
    ∀ (fuel attempt : Nat) (sha : Option String) (acc : List AttemptInfo),
      (∀ e ∈ acc, traceOK e) →
      ∀ e ∈ (saveGo store attempt fuel sha acc).trace, traceOK e := by
  intro fuel
  induction fuel with
  | zero =>
    intro attempt sha acc hacc e he
    simp only [saveGo, List.mem_reverse] at he
    exact hacc e he
  | succ n ih =>
    intro attempt sha acc hacc e he
    rcases hstep : attemptStep store attempt sha with ⟨res, info⟩
    have hinfo : traceOK info := by
      have h := (attemptStep_info store attempt sha).1
      rw [hstep] at h
      exact h
    rcases res with ns | ⟨m, shaAfter⟩
    · simp only [saveGo, hstep, List.mem_reverse, List.mem_cons] at he
      rcases he with rfl | he
      · exact hinfo
      · exact hacc e he
    · simp only [saveGo, hstep] at he
      split at he
      · simp only [List.mem_reverse, List.mem_cons] at he
        rcases he with rfl | he
        · exact hinfo
        · exact hacc e he
      · refine ih (attempt + 1) shaAfter (info :: acc) ?_ e he
        intro x hx
        rcases List.mem_cons.mp hx with rfl | hx
        · exact hinfo
        · exact hacc x hx

/-- The retry loop performs at most `fuel` further attempts. -/
theorem saveGo_trace_length (store : StoreBehavior) :
    ∀ (fuel attempt : Nat) (sha : Option String) (acc : List AttemptInfo),
      (saveGo store attempt fuel sha acc).trace.length ≤ acc.length + fuel := by
  intro fuel
  induction fuel with
  | zero =>
    intro attempt sha acc
    simp [saveGo]
  | succ n ih =>
    intro attempt sha acc
    rcases hstep : attemptStep store attempt sha with ⟨res, info⟩
    rcases res with ns | ⟨m, shaAfter⟩
    · simp [saveGo, hstep]
    · simp only [saveGo, hstep]
      split
      · simp
      · have := ih (attempt + 1) shaAfter (info :: acc)
        simp only [List.length_cons] at this
        omega

/-- When the re-fetch does not throw and the PUT succeeds, the attempt
succeeds with the PUT's new sha. -/
theorem attemptStep_put_ok (store : StoreBehavior) (a : Nat) (sha : Option String) (s : String)
    (hnt : ∀ m, store.check a ≠ CheckResult.threw m) (hp : store.put a = PutResult.ok s) :
    (attemptStep store a sha).1 = StepResult.success s := by
  by_cases hn : (decide (1 < a) || sha.isNone) = true <;>
    rcases hc : store.check a with s2 | _ | m
  case pos.threw => exact absurd hc (hnt m)
  case neg.threw => exact absurd hc (hnt m)
  all_goals simp [attemptStep, hn, hc, hp]

/-- When the re-fetch does not throw and the PUT fails, the attempt
fails with the PUT's error message. -/
theorem attemptStep_put_err (store : StoreBehavior) (a : Nat) (sha : Option String) (m : String)
    (hnt : ∀ m2, store.check a ≠ CheckResult.threw m2) (hp : store.put a = PutResult.err m) :
    ∃ shaAfter, (attemptStep store a sha).1 = StepResult.failure m shaAfter := by
  by_cases hn : (decide (1 < a) || sha.isNone) = true <;>
    rcases hc : store.check a with s2 | _ | m3
  case pos.threw => exact absurd hc (hnt m3)
  case neg.threw => exact absurd hc (hnt m3)
  case pos.ok => exact ⟨some s2, by simp [attemptStep, hn, hc, hp]⟩
  all_goals exact ⟨sha, by simp [attemptStep, hn, hc, hp]⟩

/-- A store whose PUT fails on the first two attempts with a transient
conflict and succeeds on the third; re-fetches respond ok-less (sha
kept). -/
def failTwiceStore : StoreBehavior :=
  { check := fun _ => CheckResult.notOk,
    put := fun n => if n ≤ 2 then PutResult.err "conflict" else PutResult.ok "sha-3" }

/-- C2: every save retries up to the fixed bound `MAX_RETRIES = 3`; the
backoff slept after a failed non-final attempt `n` is `500 * n`
(linearly increasing); the version tag is re-fetched at the start of
every retry after the first attempt; a store whose PUT fails on attempts
1 and 2 and succeeds on attempt 3 yields a successful persist within at
most 3 attempts; a store whose PUT always fails yields failure after
exactly 3 attempts with the last error propagated. -/
theorem save_retry_bound_and_backoff (store : StoreBehavior) (sha0 : Option String)
    (hnothrow : ∀ n m, store.check n ≠ CheckResult.threw m) :
    ((∃ e1, store.put 1 = PutResult.err e1) → (∃ e2, store.put 2 = PutResult.err e2) →
      (∃ s, store.put 3 = PutResult.ok s) →
        (saveToGitHub store sha0).ok = true ∧ (saveToGitHub store sha0).trace.length ≤ 3)
    ∧ ((∃ e1, store.put 1 = PutResult.err e1) → (∃ e2, store.put 2 = PutResult.err e2) →
      ∀ e3, store.put 3 = PutResult.err e3 →
        (saveToGitHub store sha0).ok = false
        ∧ (saveToGitHub store sha0).trace.length = 3
        ∧ (saveToGitHub store sha0).lastErr = some e3)
    ∧ (∀ e ∈ (saveToGitHub store sha0).trace, 2 ≤ e.attempt → e.didRefetch = true)
    ∧ (∀ e ∈ (saveToGitHub store sha0).trace, ∀ d, e.delayMs = some d → d = 500 * e.attempt)
    ∧ (saveToGitHub store sha0).trace.length ≤ 3 := by
  have hff : ∀ (e1 e2 : String), store.put 1 = PutResult.err e1 →
      store.put 2 = PutResult.err e2 →
      ∃ sha2 i1 i2, saveToGitHub store sha0 = saveGo store 3 1 sha2 [i2, i1] := by
    intro e1 e2 hp1 hp2
    obtain ⟨shaA, h1⟩ := attemptStep_put_err store 1 sha0 e1 (hnothrow 1) hp1
    rcases hs1 : attemptStep store 1 sha0 with ⟨r1, i1⟩
    rw [hs1] at h1
    simp only at h1
    subst h1
    obtain ⟨shaB, h2⟩ := attemptStep_put_err store 2 shaA e2 (hnothrow 2) hp2
    rcases hs2 : attemptStep store 2 shaA with ⟨r2, i2⟩
    rw [hs2] at h2
    simp only at h2
    subst h2
    refine ⟨shaB, i1, i2, ?_⟩
    have step1 : saveToGitHub store sha0 = saveGo store 2 2 shaA [i1] := by
      show saveGo store 1 (2 + 1) sha0 [] = _
      rw [saveGo, hs1]
      simp [MAX_RETRIES]
    rw [step1]
    show saveGo store 2 (1 + 1) shaA [i1] = _
    rw [saveGo, hs2]
    simp [MAX_RETRIES]
  refine ⟨?_, ?_, ?_, ?_, ?_⟩
  · rintro ⟨e1, hp1⟩ ⟨e2, hp2⟩ ⟨s, hp3⟩
    obtain ⟨sha2, i1, i2, heq⟩ := hff e1 e2 hp1 hp2
    have h3 := attemptStep_put_ok store 3 sha2 s (hnothrow 3) hp3
    rcases hs3 : attemptStep store 3 sha2 with ⟨r3, i3⟩
    rw [hs3] at h3
    simp only at h3
    subst h3
    have hval : saveGo store 3 1 sha2 [i2, i1] =
        { ok := true, lastErr := none, fileSHA := some s, trace := [i3, i2, i1].reverse } := by
      show saveGo store 3 (0 + 1) sha2 [i2, i1] = _
      rw [saveGo, hs3]
    rw [heq, hval]
    exact ⟨rfl, by simp⟩
  · rintro ⟨e1, hp1⟩ ⟨e2, hp2⟩ e3 hp3
    obtain ⟨sha2, i1, i2, heq⟩ := hff e1 e2 hp1 hp2
    obtain ⟨shaC, h3⟩ := attemptStep_put_err store 3 sha2 e3 (hnothrow 3) hp3
    rcases hs3 : attemptStep store 3 sha2 with ⟨r3, i3⟩
    rw [hs3] at h3
    simp only at h3
    subst h3
    have hval : saveGo store 3 1 sha2 [i2, i1] =
        { ok := false, lastErr := some e3, fileSHA := shaC, trace := [i3, i2, i1].reverse } := by
      show saveGo store 3 (0 + 1) sha2 [i2, i1] = _
      rw [saveGo, hs3]
      simp [MAX_RETRIES]
    rw [heq, hval]
    exact ⟨rfl, by simp, rfl⟩
  · intro e he h2
    exact ((saveGo_trace_traceOK store MAX_RETRIES 1 sha0 []
      (by intro x hx; simp at hx) e he).1 h2)
  · intro e he d hd
    exact ((saveGo_trace_traceOK store MAX_RETRIES 1 sha0 []
      (by intro x hx; simp at hx) e he).2 d hd)
  · have := saveGo_trace_length store MAX_RETRIES 1 sha0 []
    simpa [MAX_RETRIES] using this

/-- Witness for C2: the fails-twice-then-succeeds store persists
successfully within 3 attempts. -/
theorem save_retry_bound_and_backoff_witness :
    (saveToGitHub failTwiceStore none).ok = true
    ∧ (saveToGitHub failTwiceStore none).trace.length ≤ 3 :=
  (save_retry_bound_and_backoff failTwiceStore none
      (by intro n m; simp [failTwiceStore])).1
    ⟨"conflict", by simp [failTwiceStore]⟩
    ⟨"conflict", by simp [failTwiceStore]⟩
    ⟨"sha-3", by simp [failTwiceStore]⟩

/-- A one-game state with a known version tag, used to exercise the
failure paths. -/
def stA : ServerState := { games := [gameA], fileSHA := some "sha0" }

/-- Concrete authorized edit request addressing `gameA`. -/
def editReq1 : EditRequest :=
  { auth := some "Bearer tok", id := some "game_1_aaaaa", title := some "A2",
    description := none, link := none, image := none, file := none }

/-- Concrete authorized delete request addressing `gameA`. -/
def delReq1 : DeleteRequest :=
  { auth := some "Bearer tok", id := some "game_1_aaaaa" }

/-- C1: when the persist step of an add, edit, or delete exhausts its
retries, the in-memory collection afterwards equals exactly its state
before the operation (the appended entry is removed, the edited entry is
restored at its position, the deleted entry is re-inserted at its
original position), and the handler reports the 500 persist failure. -/
theorem rollback_on_persist_failure (adminToken : String) (store : StoreBehavior)
    (st : ServerState) (reqA : AddRequest) (nowMs : Nat) (rand nowIso : String)
    (reqE : EditRequest) (nowIsoE : String) (reqD : DeleteRequest) (idxE idxD : Nat)
    (hfail : (saveToGitHub store st.fileSHA).ok = false)
    (hauthA : requireAuth adminToken reqA.auth = true)
    (hvalidA : (blank reqA.title || blank reqA.description || blank reqA.link) = false)
    (hauthE : requireAuth adminToken reqE.auth = true)
    (hidE : truthy reqE.id = true)
    (hfoundE : st.games.findIdx? (fun g => g.id == reqE.id.getD "") = some idxE)
    (hauthD : requireAuth adminToken reqD.auth = true)
    (hidD : truthy reqD.id = true)
    (hfoundD : st.games.findIdx? (fun g => g.id == reqD.id.getD "") = some idxD) :
    ((postAdd adminToken store reqA nowMs rand nowIso st).state.games = st.games
      ∧ (postAdd adminToken store reqA nowMs rand nowIso st).status = 500
      ∧ (postAdd adminToken store reqA nowMs rand nowIso st).body
          = RespBody.error "Failed to persist game")
    ∧ ((postEdit adminToken store reqE nowIsoE st).state.games = st.games
      ∧ (postEdit adminToken store reqE nowIsoE st).status = 500
      ∧ (postEdit adminToken store reqE nowIsoE st).body
          = RespBody.error "Failed to persist changes")
    ∧ ((postDelete adminToken store reqD st).state.games = st.games
      ∧ (postDelete adminToken store reqD st).status = 500
      ∧ (postDelete adminToken store reqD st).body
          = RespBody.error "Failed to persist deletion") := by
  refine ⟨?_, ?_, ?_⟩
  · simp [postAdd, hauthA, hvalidA, hfail]
  · have hb := findIdx?_bound hfoundE
    simp [postEdit, hauthE, hidE, hfoundE, hfail, List.set_set,
      List.getElem?_eq_getElem hb, set_getElem_self _ _ hb]
  · have hb := findIdx?_bound hfoundD
    simp [postDelete, hauthD, hidD, hfoundD, hfail,
      List.getElem?_eq_getElem hb, insertIdx_getElem_eraseIdx _ _ hb]

/-- Witness for C1: with an always-failing store, add, edit, and delete
on the one-game state roll back and report 500. -/
theorem rollback_on_persist_failure_witness :
    ((postAdd "tok" failStore addReqA 1 "aaaaa" "t1" stA).state.games = stA.games
      ∧ (postAdd "tok" failStore addReqA 1 "aaaaa" "t1" stA).status = 500
      ∧ (postAdd "tok" failStore addReqA 1 "aaaaa" "t1" stA).body
          = RespBody.error "Failed to persist game")
    ∧ ((postEdit "tok" failStore editReq1 "t9" stA).state.games = stA.games
      ∧ (postEdit "tok" failStore editReq1 "t9" stA).status = 500
      ∧ (postEdit "tok" failStore editReq1 "t9" stA).body
          = RespBody.error "Failed to persist changes")
    ∧ ((postDelete "tok" failStore delReq1 stA).state.games = stA.games
      ∧ (postDelete "tok" failStore delReq1 stA).status = 500
      ∧ (postDelete "tok" failStore delReq1 stA).body
          = RespBody.error "Failed to persist deletion") :=
  rollback_on_persist_failure "tok" failStore stA addReqA 1 "aaaaa" "t1"
    editReq1 "t9" delReq1 0 0
    (by decide) (by decide) (by decide) (by decide) (by decide) (by decide)
    (by decide) (by decide) (by decide)

/-- C10: when a persist attempt fails and the collection is rolled back,
the version tag is not rolled back: after the handler it equals whatever
`saveToGitHub` left in `fileSHA` (possibly overwritten by the re-fetches
before retries), not necessarily the pre-operation tag; concretely, a
failed add from a state with tag `sha0` whose re-fetches return
`sha-refetched` leaves the games list restored but the tag changed. -/
theorem version_tag_not_rolled_back (adminToken : String) (store : StoreBehavior)
    (st : ServerState) (reqA : AddRequest) (nowMs : Nat) (rand nowIso : String)
    (reqE : EditRequest) (nowIsoE : String) (reqD : DeleteRequest) (idxE idxD : Nat)
    (hfail : (saveToGitHub store st.fileSHA).ok = false)
    (hauthA : requireAuth adminToken reqA.auth = true)
    (hvalidA : (blank reqA.title || blank reqA.description || blank reqA.link) = false)
    (hauthE : requireAuth adminToken reqE.auth = true)
    (hidE : truthy reqE.id = true)
    (hfoundE : st.games.findIdx? (fun g => g.id == reqE.id.getD "") = some idxE)
    (hauthD : requireAuth adminToken reqD.auth = true)
    (hidD : truthy reqD.id = true)
    (hfoundD : st.games.findIdx? (fun g => g.id == reqD.id.getD "") = some idxD) :
    ((postAdd adminToken store reqA nowMs rand nowIso st).state.fileSHA
        = (saveToGitHub store st.fileSHA).fileSHA
      ∧ (postEdit adminToken store reqE nowIsoE st).state.fileSHA
        = (saveToGitHub store st.fileSHA).fileSHA
      ∧ (postDelete adminToken store reqD st).state.fileSHA
        = (saveToGitHub store st.fileSHA).fileSHA)
    ∧ ((postAdd "tok" failStore addReqA 1 "aaaaa" "t1" stA).state.games = stA.games
      ∧ (postAdd "tok" failStore addReqA 1 "aaaaa" "t1" stA).status = 500
      ∧ (postAdd "tok" failStore addReqA 1 "aaaaa" "t1" stA).state.fileSHA
          = some "sha-refetched"
      ∧ stA.fileSHA = some "sha0"
      ∧ (postAdd "tok" failStore addReqA 1 "aaaaa" "t1" stA).state.fileSHA
          ≠ stA.fileSHA) := by
  refine ⟨⟨?_, ?_, ?_⟩, by decide⟩
  · simp [postAdd, hauthA, hvalidA, hfail]
  · simp [postEdit, hauthE, hidE, hfoundE, hfail]
  · simp [postDelete, hauthD, hidD, hfoundD, hfail]

/-- Witness for C10: instantiation at the always-failing store and the
one-game state. -/
theorem version_tag_not_rolled_back_witness :
    ((postAdd "tok" failStore addReqA 1 "aaaaa" "t1" stA).state.fileSHA
        = (saveToGitHub failStore stA.fileSHA).fileSHA
      ∧ (postEdit "tok" failStore editReq1 "t9" stA).state.fileSHA
        = (saveToGitHub failStore stA.fileSHA).fileSHA
      ∧ (postDelete "tok" failStore delReq1 stA).state.fileSHA
        = (saveToGitHub failStore stA.fileSHA).fileSHA)
    ∧ ((postAdd "tok" failStore addReqA 1 "aaaaa" "t1" stA).state.games = stA.games
      ∧ (postAdd "tok" failStore addReqA 1 "aaaaa" "t1" stA).status = 500
      ∧ (postAdd "tok" failStore addReqA 1 "aaaaa" "t1" stA).state.fileSHA
          = some "sha-refetched"
      ∧ stA.fileSHA = some "sha0"
      ∧ (postAdd "tok" failStore addReqA 1 "aaaaa" "t1" stA).state.fileSHA
          ≠ stA.fileSHA) :=
  version_tag_not_rolled_back "tok" failStore stA addReqA 1 "aaaaa" "t1"
    editReq1 "t9" delReq1 0 0
    (by decide) (by decide) (by decide) (by decide) (by decide) (by decide)
    (by decide) (by decide) (by decide)

/-- C4: `GET /games` responds with the exact reverse of insertion order,
does not mutate the collection (so two calls without an intervening
mutation return identical results), and after add(A) then add(B) from
the fresh state it returns [B, A]. -/
theorem snapshot_newest_first :
    (∀ st : ServerState,
      (getGames st).body = RespBody.gamesList st.games.reverse
      ∧ (getGames st).state = st
      ∧ (getGames st).broadcasts = []
      ∧ (getGames st).save = none
      ∧ getGames ((getGames st).state) = getGames st)
    ∧ stAB.games = [gameA, gameB]
    ∧ (getGames stAB).body = RespBody.gamesList [gameB, gameA] := by
  refine ⟨fun st => ⟨rfl, rfl, rfl, rfl, rfl⟩, by decide, by decide⟩

/-- Unauthorized `POST /add` request: wrong bearer token. -/
def badAddReq : AddRequest :=
  { auth := some "Bearer wrong", title := some "A", description := some "dA",
    link := some "lA", image := none, file := none }

/-- Unauthorized `POST /edit` request: no authorization header. -/
def badEditReq : EditRequest :=
  { auth := none, id := some "game_1_aaaaa", title := some "A2",
    description := none, link := none, image := none, file := none }

/-- Unauthorized `POST /delete` request: malformed header. -/
def badDelReq : DeleteRequest :=
  { auth := some "tok", id := some "game_1_aaaaa" }

/-- C5: an add, edit, or delete request whose authorization header is
missing or differs from `Bearer <adminToken>` gets 401 Unauthorized,
leaves the whole server state untouched, and never attempts a persist. -/
theorem unauthorized_rejected (adminToken : String) (store : StoreBehavior)
    (reqA : AddRequest) (nowMs : Nat) (rand nowIso : String)
    (reqE : EditRequest) (nowIsoE : String) (reqD : DeleteRequest) (st : ServerState)
    (hA : reqA.auth ≠ some ("Bearer " ++ adminToken))
    (hE : reqE.auth ≠ some ("Bearer " ++ adminToken))
    (hD : reqD.auth ≠ some ("Bearer " ++ adminToken)) :
    ((postAdd adminToken store reqA nowMs rand nowIso st).status = 401
      ∧ (postAdd adminToken store reqA nowMs rand nowIso st).body
          = RespBody.error "Unauthorized"
      ∧ (postAdd adminToken store reqA nowMs rand nowIso st).state = st
      ∧ (postAdd adminToken store reqA nowMs rand nowIso st).save = none)
    ∧ ((postEdit adminToken store reqE nowIsoE st).status = 401
      ∧ (postEdit adminToken store reqE nowIsoE st).body = RespBody.error "Unauthorized"
      ∧ (postEdit adminToken store reqE nowIsoE st).state = st
      ∧ (postEdit adminToken store reqE nowIsoE st).save = none)
    ∧ ((postDelete adminToken store reqD st).status = 401
      ∧ (postDelete adminToken store reqD st).body = RespBody.error "Unauthorized"
      ∧ (postDelete adminToken store reqD st).state = st
      ∧ (postDelete adminToken store reqD st).save = none) := by
  have hA2 : requireAuth adminToken reqA.auth = false := by
    cases h : requireAuth adminToken reqA.auth
    · rfl
    · exact absurd ((requireAuth_iff _ _).mp h) hA
  have hE2 : requireAuth adminToken reqE.auth = false := by
    cases h : requireAuth adminToken reqE.auth
    · rfl
    · exact absurd ((requireAuth_iff _ _).mp h) hE
  have hD2 : requireAuth adminToken reqD.auth = false := by
    cases h : requireAuth adminToken reqD.auth
    · rfl
    · exact absurd ((requireAuth_iff _ _).mp h) hD
  refine ⟨?_, ?_, ?_⟩
  · simp [postAdd, hA2]
  · simp [postEdit, hE2]
  · simp [postDelete, hD2]

/-- Witness for C5: three concretely unauthorized requests against the
one-game state. -/
theorem unauthorized_rejected_witness :
    ((postAdd "tok" okStore badAddReq 1 "aaaaa" "t1" stA).status = 401
      ∧ (postAdd "tok" okStore badAddReq 1 "aaaaa" "t1" stA).body
          = RespBody.error "Unauthorized"
      ∧ (postAdd "tok" okStore badAddReq 1 "aaaaa" "t1" stA).state = stA
      ∧ (postAdd "tok" okStore badAddReq 1 "aaaaa" "t1" stA).save = none)
    ∧ ((postEdit "tok" okStore badEditReq "t9" stA).status = 401
      ∧ (postEdit "tok" okStore badEditReq "t9" stA).body = RespBody.error "Unauthorized"
      ∧ (postEdit "tok" okStore badEditReq "t9" stA).state = stA
      ∧ (postEdit "tok" okStore badEditReq "t9" stA).save = none)
    ∧ ((postDelete "tok" okStore badDelReq stA).status = 401
      ∧ (postDelete "tok" okStore badDelReq stA).body = RespBody.error "Unauthorized"
      ∧ (postDelete "tok" okStore badDelReq stA).state = stA
      ∧ (postDelete "tok" okStore badDelReq stA).save = none) :=
  unauthorized_rejected "tok" okStore badAddReq 1 "aaaaa" "t1" badEditReq "t9"
    badDelReq stA (by decide) (by decide) (by decide)

/-- C7: every newly connected subscriber is sent exactly one `init`
message whose payload is the full current collection at connection time;
a subscriber connecting after add(A), add(B) receives one init message
whose payload contains both entries, not the individual add events. -/
theorem init_snapshot_to_new_subscriber :
    (∀ (st : ServerState) (ts : Nat),
      onConnection st ts
          = [{ type := "init", payload := WsPayload.list st.games, ts := ts }]
      ∧ (onConnection st ts).length = 1)
    ∧ stAB.games = [gameA, gameB]
    ∧ onConnection stAB 5
        = [{ type := "init", payload := WsPayload.list [gameA, gameB], ts := 5 }]
    ∧ gameA ∈ stAB.games ∧ gameB ∈ stAB.games := by
  refine ⟨fun st ts => ⟨rfl, rfl⟩, by decide, by decide, by decide, by decide⟩

/-- Authorized `POST /edit` request addressing an id not in `stA`. -/
def editReqMissing : EditRequest :=
  { auth := some "Bearer tok", id := some "nope", title := some "X",
    description := none, link := none, image := none, file := none }

/-- Authorized `POST /delete` request addressing an id not in `stA`. -/
def delReqMissing : DeleteRequest :=
  { auth := some "Bearer tok", id := some "nope" }

/-- C6: an edit or delete whose id is not in the collection gets 404 and
changes nothing; and when ids are duplicate-free, a successful delete
followed by a second delete of the same id gets 404 the second time. -/
theorem notfound_no_mutation (adminToken : String) (store store2 : StoreBehavior)
    (st : ServerState) (reqE : EditRequest) (nowIsoE : String)
    (reqD reqD2 : DeleteRequest) (idx2 : Nat)
    (hauthE : requireAuth adminToken reqE.auth = true)
    (hidE : truthy reqE.id = true)
    (hnfE : st.games.findIdx? (fun g => g.id == reqE.id.getD "") = none)
    (hauthD : requireAuth adminToken reqD.auth = true)
    (hidD : truthy reqD.id = true)
    (hnfD : st.games.findIdx? (fun g => g.id == reqD.id.getD "") = none)
    (hauthD2 : requireAuth adminToken reqD2.auth = true)
    (hidD2 : truthy reqD2.id = true)
    (hfound2 : st.games.findIdx? (fun g => g.id == reqD2.id.getD "") = some idx2)
    (hnodup : (st.games.map Game.id).Nodup)
    (hok : (saveToGitHub store st.fileSHA).ok = true) :
    ((postEdit adminToken store reqE nowIsoE st).status = 404
      ∧ (postEdit adminToken store reqE nowIsoE st).body = RespBody.error "Game not found"
      ∧ (postEdit adminToken store reqE nowIsoE st).state = st
      ∧ (postEdit adminToken store reqE nowIsoE st).save = none)
    ∧ ((postDelete adminToken store reqD st).status = 404
      ∧ (postDelete adminToken store reqD st).body = RespBody.error "Game not found"
      ∧ (postDelete adminToken store reqD st).state = st
      ∧ (postDelete adminToken store reqD st).save = none)
    ∧ ((postDelete adminToken store reqD2 st).status = 200
      ∧ (postDelete adminToken store2 reqD2
          (postDelete adminToken store reqD2 st).state).status = 404
      ∧ (postDelete adminToken store2 reqD2
            (postDelete adminToken store reqD2 st).state).state
          = (postDelete adminToken store reqD2 st).state
      ∧ (postDelete adminToken store2 reqD2
            (postDelete adminToken store reqD2 st).state).save = none) := by
  have hb := findIdx?_bound hfound2
  have hbm : idx2 < (st.games.map Game.id).length := by
    simpa using hb
  have hpid : (st.games[idx2].id == reqD2.id.getD "") = true := by
    have h := findIdx?_getD hfound2
    rwa [getD_eq_getElem_of_lt hb] at h
  have hnone : (st.games.eraseIdx idx2).findIdx?
      (fun g => g.id == reqD2.id.getD "") = none := by
    rw [List.findIdx?_eq_none_iff]
    intro g hg
    simp only [beq_iff_eq] at hpid
    rw [beq_eq_false_iff_ne]
    intro hgid
    have hmem : g.id ∈ (st.games.map Game.id).eraseIdx idx2 := by
      rw [← map_eraseIdx]
      exact List.mem_map_of_mem Game.id hg
    rw [hgid, ← hpid] at hmem
    have : (st.games.map Game.id)[idx2] = st.games[idx2].id := by
      simp
    rw [← this] at hmem
    exact nodup_getElem_not_mem_eraseIdx _ idx2 hnodup hbm hmem
  have hout1 : (postDelete adminToken store reqD2 st).state =
      { games := st.games.eraseIdx idx2,
        fileSHA := (saveToGitHub store st.fileSHA).fileSHA } := by
    simp [postDelete, hauthD2, hidD2, hfound2, hok]
  refine ⟨?_, ?_, ?_, ?_⟩
  · simp [postEdit, hauthE, hidE, hnfE]
  · simp [postDelete, hauthD, hidD, hnfD]
  · simp [postDelete, hauthD2, hidD2, hfound2, hok]
  · rw [hout1]
    refine ⟨?_, ?_, ?_⟩ <;> simp [postDelete, hauthD2, hidD2, hnone]

/-- Witness for C6: unknown-id edit and delete against the one-game
state, and delete-twice of the known id. -/
theorem notfound_no_mutation_witness :
    ((postEdit "tok" okStore editReqMissing "t9" stA).status = 404
      ∧ (postEdit "tok" okStore editReqMissing "t9" stA).body
          = RespBody.error "Game not found"
      ∧ (postEdit "tok" okStore editReqMissing "t9" stA).state = stA
      ∧ (postEdit "tok" okStore editReqMissing "t9" stA).save = none)
    ∧ ((postDelete "tok" okStore delReqMissing stA).status = 404
      ∧ (postDelete "tok" okStore delReqMissing stA).body
          = RespBody.error "Game not found"
      ∧ (postDelete "tok" okStore delReqMissing stA).state = stA
      ∧ (postDelete "tok" okStore delReqMissing stA).save = none)
    ∧ ((postDelete "tok" okStore delReq1 stA).status = 200
      ∧ (postDelete "tok" okStore delReq1
          (postDelete "tok" okStore delReq1 stA).state).status = 404
      ∧ (postDelete "tok" okStore delReq1
            (postDelete "tok" okStore delReq1 stA).state).state
          = (postDelete "tok" okStore delReq1 stA).state
      ∧ (postDelete "tok" okStore delReq1
            (postDelete "tok" okStore delReq1 stA).state).save = none) :=
  notfound_no_mutation "tok" okStore okStore stA editReqMissing "t9"
    delReqMissing delReq1 0
    (by decide) (by decide) (by decide) (by decide) (by decide) (by decide)
    (by decide) (by decide) (by decide) (by decide) (by decide)

/-- C9: an add with a missing or blank required field gets 400 and
changes nothing; otherwise the new entry — trimmed fields, generated id,
creation timestamp — is appended at the end of the list and, when the
persist succeeds, returned with status 201. -/
theorem add_validates_and_appends (adminToken : String) (store : StoreBehavior)
    (req : AddRequest) (nowMs : Nat) (rand nowIso : String) (st : ServerState)
    (hauth : requireAuth adminToken req.auth = true) :
    ((blank req.title || blank req.description || blank req.link) = true →
      (postAdd adminToken store req nowMs rand nowIso st).status = 400
      ∧ (postAdd adminToken store req nowMs rand nowIso st).body
          = RespBody.error "title, description, and link are required"
      ∧ (postAdd adminToken store req nowMs rand nowIso st).state = st
      ∧ (postAdd adminToken store req nowMs rand nowIso st).save = none)
    ∧ ((blank req.title || blank req.description || blank req.link) = false →
      (saveToGitHub store st.fileSHA).ok = true →
      (postAdd adminToken store req nowMs rand nowIso st).status = 201
      ∧ (postAdd adminToken store req nowMs rand nowIso st).state.games
          = st.games ++ [newGame req nowMs rand nowIso]
      ∧ (postAdd adminToken store req nowMs rand nowIso st).body
          = RespBody.game (newGame req nowMs rand nowIso)
      ∧ (newGame req nowMs rand nowIso).id = makeGameId nowMs rand
      ∧ (newGame req nowMs rand nowIso).title = jsTrim (req.title.getD "")
      ∧ (newGame req nowMs rand nowIso).description = jsTrim (req.description.getD "")
      ∧ (newGame req nowMs rand nowIso).link = jsTrim (req.link.getD "")
      ∧ (newGame req nowMs rand nowIso).createdAt = nowIso
      ∧ (newGame req nowMs rand nowIso).updatedAt = none) := by
  constructor
  · intro hv
    simp [postAdd, hauth, hv]
  · intro hv hok
    simp [postAdd, hauth, hv, hok, newGame]

/-- Witness for C9: the concrete add of game A from the fresh state. -/
theorem add_validates_and_appends_witness :
    (postAdd "tok" okStore addReqA 1 "aaaaa" "t1" st0).status = 201
    ∧ (postAdd "tok" okStore addReqA 1 "aaaaa" "t1" st0).state.games
        = st0.games ++ [newGame addReqA 1 "aaaaa" "t1"]
    ∧ (postAdd "tok" okStore addReqA 1 "aaaaa" "t1" st0).body
        = RespBody.game (newGame addReqA 1 "aaaaa" "t1")
    ∧ (newGame addReqA 1 "aaaaa" "t1").id = makeGameId 1 "aaaaa"
    ∧ (newGame addReqA 1 "aaaaa" "t1").title = jsTrim (addReqA.title.getD "")
    ∧ (newGame addReqA 1 "aaaaa" "t1").description
        = jsTrim (addReqA.description.getD "")
    ∧ (newGame addReqA 1 "aaaaa" "t1").link = jsTrim (addReqA.link.getD "")
    ∧ (newGame addReqA 1 "aaaaa" "t1").createdAt = "t1"
    ∧ (newGame addReqA 1 "aaaaa" "t1").updatedAt = none :=
  (add_validates_and_appends "tok" okStore addReqA 1 "aaaaa" "t1" st0
    (by decide)).2 (by decide) (by decide)

/-- Field-by-field description of `editApply`: `id` and `createdAt` are
never touched, `updatedAt` is set, the three text fields follow
blank-means-unchanged with trimming, and `image` is replaced by the
uploaded file's data URI, else verbatim by a truthy `image` field. -/
theorem editApply_fields (prev : Game) (req : EditRequest) (nowIso : String) :
    (editApply prev req nowIso).id = prev.id
    ∧ (editApply prev req nowIso).createdAt = prev.createdAt
    ∧ (editApply prev req nowIso).updatedAt = some nowIso
    ∧ (editApply prev req nowIso).title
        = (if blank req.title then prev.title else jsTrim (req.title.getD ""))
    ∧ (editApply prev req nowIso).description
        = (if blank req.description then prev.description
           else jsTrim (req.description.getD ""))
    ∧ (editApply prev req nowIso).link
        = (if blank req.link then prev.link else jsTrim (req.link.getD ""))
    ∧ (editApply prev req nowIso).image
        = (match req.file with
           | some f => some (dataUri f)
           | none => if truthy req.image then req.image else prev.image) := by
  by_cases h1 : blank req.title = true <;>
    by_cases h2 : blank req.description = true <;>
      by_cases h3 : blank req.link = true <;>
        rcases hf : req.file with _ | f <;>
          by_cases h5 : truthy req.image = true <;>
            simp_all [editApply]

/-- A one-game state whose entry carries an image URL. -/
def gameImg : Game :=
  { id := "g1", title := "T", description := "D", link := "L",
    image := some "http://img/a.png", createdAt := "c0", updatedAt := none }

/-- State holding `gameImg`. -/
def stImg : ServerState := { games := [gameImg], fileSHA := some "sha0" }

/-- Authorized edit of `gameImg` supplying only an `image` field that is
blank after trimming (a single space, which is truthy in JS). -/
def editReqBlankImage : EditRequest :=
  { auth := some "Bearer tok", id := some "g1", title := none,
    description := none, link := none, image := some " ", file := none }

/-- Counterexample to C3: an edit supplying `image = " "` — a field
value that is blank after trimming — succeeds and *changes* the stored
image (and therefore also changes a part of the entry other than the
claimed title/description/link/updatedAt), contradicting the claim that
every absent-or-blank field leaves the stored value unchanged and all
other parts are unchanged. -/
theorem edit_blank_image_changes_entry :
    (postEdit "tok" okStore editReqBlankImage "t1" stImg).status = 200
    ∧ jsTrim " " = ""
    ∧ stImg.games.map Game.image = [some "http://img/a.png"]
    ∧ (postEdit "tok" okStore editReqBlankImage "t1" stImg).state.games.map Game.image
        = [some " "]
    ∧ (postEdit "tok" okStore editReqBlankImage "t1" stImg).state.games.map Game.image
        ≠ stImg.games.map Game.image := by
  refine ⟨by decide, by decide, by decide, by decide, by decide⟩

/-- C3 as amended: for every successful edit of an existing id, the
three text fields follow blank-means-unchanged (a provided non-blank
value is trimmed and replaces the stored one), `updatedAt` is set, `id`,
`createdAt`, and the entry's position are unchanged, and every other
entry is untouched; the `image` field however is replaced — verbatim,
untrimmed — whenever a file is uploaded or the `image` field is a
non-empty string (even one that is blank after trimming), and kept
otherwise. -/
theorem edit_partial_update (adminToken : String) (store : StoreBehavior)
    (req : EditRequest) (nowIso : String) (st : ServerState) (idx : Nat)
    (hauth : requireAuth adminToken req.auth = true)
    (hid : truthy req.id = true)
    (hfound : st.games.findIdx? (fun g => g.id == req.id.getD "") = some idx)
    (hok : (saveToGitHub store st.fileSHA).ok = true) :
    (postEdit adminToken store req nowIso st).status = 200
    ∧ (postEdit adminToken store req nowIso st).state.games.length = st.games.length
    ∧ (∀ j, j ≠ idx →
        (postEdit adminToken store req nowIso st).state.games[j]? = st.games[j]?)
    ∧ ∃ prev, st.games[idx]? = some prev
      ∧ (postEdit adminToken store req nowIso st).state.games[idx]?
          = some (editApply prev req nowIso)
      ∧ (postEdit adminToken store req nowIso st).body
          = RespBody.game (editApply prev req nowIso)
      ∧ (editApply prev req nowIso).id = prev.id
      ∧ (editApply prev req nowIso).createdAt = prev.createdAt
      ∧ (editApply prev req nowIso).updatedAt = some nowIso
      ∧ (editApply prev req nowIso).title
          = (if blank req.title then prev.title else jsTrim (req.title.getD ""))
      ∧ (editApply prev req nowIso).description
          = (if blank req.description then prev.description
             else jsTrim (req.description.getD ""))
      ∧ (editApply prev req nowIso).link
          = (if blank req.link then prev.link else jsTrim (req.link.getD ""))
      ∧ (editApply prev req nowIso).image
          = (match req.file with
             | some f => some (dataUri f)
             | none => if truthy req.image then req.image else prev.image) := by
  have hb := findIdx?_bound hfound
  have hout : (postEdit adminToken store req nowIso st).state =
      { games := st.games.set idx (editApply st.games[idx] req nowIso),
        fileSHA := (saveToGitHub store st.fileSHA).fileSHA } := by
    simp [postEdit, hauth, hid, hfound, hok, List.getElem?_eq_getElem hb]
  have hstatus : (postEdit adminToken store req nowIso st).status = 200 := by
    simp [postEdit, hauth, hid, hfound, hok]
  have hbody : (postEdit adminToken store req nowIso st).body
      = RespBody.game (editApply st.games[idx] req nowIso) := by
    simp [postEdit, hauth, hid, hfound, hok, List.getElem?_eq_getElem hb]
  refine ⟨hstatus, by rw [hout]; simp, ?_, st.games[idx],
    List.getElem?_eq_getElem hb, ?_, hbody, editApply_fields _ _ _⟩
  · intro j hj
    rw [hout]
    exact List.getElem?_set_ne hj.symm
  · rw [hout]
    exact List.getElem?_set_self (by simpa using hb)

/-- The spec's example edit: blank title, description "X". -/
def editReqBlankTitle : EditRequest :=
  { auth := some "Bearer tok", id := some "game_1_aaaaa", title := some "",
    description := some "X", link := none, image := none, file := none }

/-- Witness for the amended C3: the blank-title, non-blank-description
edit of game A changes only description and updatedAt. -/
theorem edit_partial_update_witness :
    (postEdit "tok" okStore
        editReqBlankTitle
        "t9" stA).status = 200
    ∧ (postEdit "tok" okStore
        editReqBlankTitle
        "t9" stA).state.games.length = stA.games.length
    ∧ (∀ j, j ≠ 0 →
        (postEdit "tok" okStore
          editReqBlankTitle
          "t9" stA).state.games[j]? = stA.games[j]?)
    ∧ ∃ prev, stA.games[0]? = some prev
      ∧ (postEdit "tok" okStore
          editReqBlankTitle
          "t9" stA).state.games[0]?
          = some (editApply prev
              editReqBlankTitle "t9")
      ∧ (postEdit "tok" okStore
          editReqBlankTitle
          "t9" stA).body
          = RespBody.game (editApply prev
              editReqBlankTitle "t9")
      ∧ (editApply prev
          editReqBlankTitle
          "t9").id = prev.id
      ∧ (editApply prev
          editReqBlankTitle
          "t9").createdAt = prev.createdAt
      ∧ (editApply prev
          editReqBlankTitle
          "t9").updatedAt = some "t9"
      ∧ (editApply prev
          editReqBlankTitle
          "t9").title
          = (if blank (some "") then prev.title else jsTrim ((some "").getD ""))
      ∧ (editApply prev
          editReqBlankTitle
          "t9").description
          = (if blank (some "X") then prev.description
             else jsTrim ((some "X").getD ""))
      ∧ (editApply prev
          editReqBlankTitle
          "t9").link
          = (if blank (none : Option String) then prev.link
             else jsTrim ((none : Option String).getD ""))
      ∧ (editApply prev
          editReqBlankTitle
          "t9").image
          = (match (none : Option ReqFile) with
             | some f => some (dataUri f)
             | none => if truthy (none : Option String) then none else prev.image) :=
  edit_partial_update "tok" okStore
    editReqBlankTitle
    "t9" stA 0 (by decide) (by decide) (by decide) (by decide)

/-- An add of game A's fields at clock value 7 with random suffix
`zzzzz`. -/
def addOpSame : Op := Op.add okStore addReqA 7 "zzzzz" "t1"

/-- Counterexample to C8: `POST /add` does not check the generated id
against the collection — it is built only from the clock and the random
suffix — so two adds whose environmental inputs coincide (same
millisecond, same random suffix) both succeed and leave two entries with
the same id in the collection. -/
theorem duplicate_ids_reachable :
    (runOps "tok" st0 [addOpSame, addOpSame]).games.length = 2
    ∧ ¬ ((runOps "tok" st0 [addOpSame, addOpSame]).games.map Game.id).Nodup := by
  refine ⟨by decide, by decide⟩

/-- C8 as amended: every operation preserves pairwise-distinct ids
provided the id generated by an add (`game_<now>_<rand>`) does not
already occur in the collection; the code itself does not enforce this
freshness. Edit never changes an id; delete only removes one. -/
theorem ids_distinct_preserved (adminToken : String) (st : ServerState) (op : Op)
    (hnd : (st.games.map Game.id).Nodup)
    (hfresh : ∀ store req nowMs rand nowIso, op = Op.add store req nowMs rand nowIso →
      makeGameId nowMs rand ∉ st.games.map Game.id) :
    ((applyOp adminToken st op).games.map Game.id).Nodup := by
  rcases op with ⟨store, req, nowMs, rand, nowIso⟩ | ⟨store, req, nowIso⟩ | ⟨store, req⟩
  · have hf := hfresh store req nowMs rand nowIso rfl
    by_cases ha : requireAuth adminToken req.auth = true
    · by_cases hv : (blank req.title || blank req.description || blank req.link) = true
      · simpa [applyOp, postAdd, ha, hv] using hnd
      · by_cases hs : (saveToGitHub store st.fileSHA).ok = true
        · simp only [applyOp, postAdd, ha, hv, hs]
          simp [List.nodup_append, hnd, newGame, hf]
        · simpa [applyOp, postAdd, ha, hv, hs] using hnd
    · simpa [applyOp, postAdd, ha] using hnd
  · by_cases ha : requireAuth adminToken req.auth = true
    · by_cases hi : truthy req.id = true
      · rcases hfd : st.games.findIdx? (fun g => g.id == req.id.getD "") with _ | idx
        · simpa [applyOp, postEdit, ha, hi, hfd] using hnd
        · have hb := findIdx?_bound hfd
          by_cases hs : (saveToGitHub store st.fileSHA).ok = true
          · have hgames : (applyOp adminToken st (Op.edit store req nowIso)).games
                = st.games.set idx (editApply st.games[idx] req nowIso) := by
              simp [applyOp, postEdit, ha, hi, hfd, hs, List.getElem?_eq_getElem hb]
            rw [hgames, List.map_set]
            have hid : (editApply st.games[idx] req nowIso).id = st.games[idx].id :=
              (editApply_fields _ _ _).1
            rw [hid]
            have hbm : idx < (st.games.map Game.id).length := by simpa using hb
            have hgm : st.games[idx].id = (st.games.map Game.id)[idx] := by simp
            rw [hgm, set_getElem_self _ _ hbm]
            exact hnd
          · have hgames : (applyOp adminToken st (Op.edit store req nowIso)).games
                = st.games := by
              simp [applyOp, postEdit, ha, hi, hfd, hs, List.set_set,
                List.getElem?_eq_getElem hb, set_getElem_self _ _ hb]
            rw [hgames]
            exact hnd
      · simpa [applyOp, postEdit, ha, hi] using hnd
    · simpa [applyOp, postEdit, ha] using hnd
  · by_cases ha : requireAuth adminToken req.auth = true
    · by_cases hi : truthy req.id = true
      · rcases hfd : st.games.findIdx? (fun g => g.id == req.id.getD "") with _ | idx
        · simpa [applyOp, postDelete, ha, hi, hfd] using hnd
        · have hb := findIdx?_bound hfd
          by_cases hs : (saveToGitHub store st.fileSHA).ok = true
          · have hgames : (applyOp adminToken st (Op.del store req)).games
                = st.games.eraseIdx idx := by
              simp [applyOp, postDelete, ha, hi, hfd, hs]
            rw [hgames, map_eraseIdx]
            exact hnd.eraseIdx idx
          · have hgames : (applyOp adminToken st (Op.del store req)).games
                = st.games := by
              simp [applyOp, postDelete, ha, hi, hfd, hs,
                List.getElem?_eq_getElem hb, insertIdx_getElem_eraseIdx _ _ hb]
            rw [hgames]
            exact hnd
      · simpa [applyOp, postDelete, ha, hi] using hnd
    · simpa [applyOp, postDelete, ha] using hnd

/-- Witness for the amended C8: adding game B (fresh id) to the one-game
state keeps ids pairwise distinct. -/
theorem ids_distinct_preserved_witness :
    ((applyOp "tok" stA (Op.add okStore addReqB 2 "bbbbb" "t2")).games.map Game.id).Nodup :=
  ids_distinct_preserved "tok" stA (Op.add okStore addReqB 2 "bbbbb" "t2")
    (by decide)
    (by intro store req nowMs rand nowIso h
        cases h
        decide)

end Showcase
